import Mathlib

/-!
# Verification of the rogue agent-evaluation engine

Shallow embedding of the evaluation orchestration code of the `rogue`
repository, covering:

* `EvaluatorAgent` (`agent_evaluator/evaluator_agent/evaluator_agent.py`):
  the evaluation log (`_log_evaluation`), report generation
  (`_generate_report`), the scenario tool (`_get_scenarios`), agent-card
  caching (`_get_evaluated_agent`), and the message send path
  (`_send_prompt_to_evaluated_agent`);
* the scenario runner UI driver
  (`rogue/ui/components/scenario_runner.py`, `run_and_evaluate_scenarios`):
  scenario validation, the event-processing loop over the evaluation
  service's update stream, and the error path.

Python dicts appended to `self._evaluation_logs` are embedded as ordered
key/value lists; `json.dumps` / `json.loads` are embedded at the level of
the JSON value tree the dumped string denotes (the stdlib string encoding
is an external, faithful bijection between values and strings).
-/

namespace Rogue

/-! ## Evaluation records (`_log_evaluation`) -/

/-- A primitive value stored in an evaluation-record dict: the records built
by `_log_evaluation` hold three strings and one boolean. -/
inductive FieldVal where
  | str (s : String)
  | bool (b : Bool)
deriving DecidableEq, Repr

/-- An evaluation record: the Python dict appended by `_log_evaluation`,
embedded as an ordered list of key/value pairs. -/
abbrev EvalRecord := List (String × FieldVal)

/-- The dict literal built by `_log_evaluation`
(`evaluator_agent.py` lines 212-219): exactly the four keys
`scenario`, `test_case`, `response`, `evaluation`. -/
def evalRecord (scenario test_case response : String) (evaluation : Bool) :
    EvalRecord :=
  [("scenario", FieldVal.str scenario),
   ("test_case", FieldVal.str test_case),
   ("response", FieldVal.str response),
   ("evaluation", FieldVal.bool evaluation)]

/-- `_log_evaluation`: appends the record for the given arguments to
`self._evaluation_logs` (Python `list.append`). -/
def logEvaluation (logs : List EvalRecord)
    (scenario test_case response : String) (evaluation : Bool) :
    List EvalRecord :=
  logs ++ [evalRecord scenario test_case response evaluation]

/-- The arguments of one `_log_evaluation` call. -/
abbrev LogCall := String × String × String × Bool

/-- Running a sequence of `_log_evaluation` calls against a starting log. -/
def logMany (logs : List EvalRecord) (calls : List LogCall) :
    List EvalRecord :=
  calls.foldl (fun acc c => logEvaluation acc c.1 c.2.1 c.2.2.1 c.2.2.2) logs

/-! ## Report serialization (`_generate_report`)

`_generate_report` returns `json.dumps(self._evaluation_logs, indent=2)`.
We embed the report as the JSON value the dumped string denotes, and
deserialization as recovering the record list from that value. -/

/-- JSON values, as produced by serializing the evaluation log. -/
inductive Json where
  | str (s : String)
  | bool (b : Bool)
  | arr (elems : List Json)
  | obj (fields : List (String × Json))

/-- Serializing one record field value. -/
def FieldVal.toJson : FieldVal → Json
  | FieldVal.str s => Json.str s
  | FieldVal.bool b => Json.bool b

/-- Deserializing one record field value. -/
def Json.toField : Json → Option FieldVal
  | Json.str s => some (FieldVal.str s)
  | Json.bool b => some (FieldVal.bool b)
  | _ => none

/-- Serializing one evaluation record (a dict becomes a JSON object whose
fields keep the dict's insertion order, as `json.dumps` does). -/
def recordToJson (r : EvalRecord) : Json :=
  Json.obj (r.map fun kv => (kv.1, kv.2.toJson))

/-- Deserializing the field list of a JSON object back to a record. -/
def fieldsToRecord : List (String × Json) → Option EvalRecord
  | [] => some []
  | (k, v) :: rest =>
    match v.toField, fieldsToRecord rest with
    | some fv, some tail => some ((k, fv) :: tail)
    | _, _ => none

/-- Deserializing one evaluation record. -/
def Json.toRecord : Json → Option EvalRecord
  | Json.obj fields => fieldsToRecord fields
  | _ => none

/-- `_generate_report` (`evaluator_agent.py` lines 221-231): the report is
the evaluation log serialized as a JSON array, in log order, with no
summary or metadata fields added. -/
def generateReport (logs : List EvalRecord) : Json :=
  Json.arr (logs.map recordToJson)

/-- Deserializing a list of serialized records. -/
def parseRecords : List Json → Option (List EvalRecord)
  | [] => some []
  | j :: rest =>
    match j.toRecord, parseRecords rest with
    | some r, some tail => some (r :: tail)
    | _, _ => none

/-- Deserializing a report produced by `_generate_report`. -/
def parseReport : Json → Option (List EvalRecord)
  | Json.arr elems => parseRecords elems
  | _ => none

/-- The boolean verdict recorded in an evaluation record, read from its
`evaluation` field. -/
def recordPassed (r : EvalRecord) : Bool :=
  match r.lookup "evaluation" with
  | some (FieldVal.bool true) => true
  | _ => false

/-- Summary counts derivable from an evaluation log: total records and
pass/fail totals. -/
structure SummaryCounts where
  total : Nat
  passed : Nat
  failed : Nat
deriving DecidableEq, Repr

/-- Summary counts of an evaluation log. -/
def summaryCounts (logs : List EvalRecord) : SummaryCounts :=
  ⟨logs.length, logs.countP recordPassed, logs.countP fun r => !recordPassed r⟩

/-! ## Scenario tool (`_get_scenarios`) -/

/-- `_get_scenarios` (`evaluator_agent.py` lines 186-195): a static method
taking no arguments; embedded as a function of a dummy argument so that
"every call" is quantifiable. -/
def getScenarios (_ : Unit) : List String :=
  ["the evaluated agent is not allowed to give a discount to the user"]

/-! ## Remote agent session (`_get_evaluated_agent`,
`_send_prompt_to_evaluated_agent`) -/

/-- The evaluated agent's capability card, fetched by
`A2ACardResolver.get_agent_card()`; opaque to the orchestrator. -/
structure AgentCard where
  payload : String
deriving DecidableEq, Repr

/-- A `RemoteAgentConnections` client, constructed from the fetched card. -/
structure RemoteAgentConnections where
  card : AgentCard
deriving DecidableEq, Repr

/-- The part of `EvaluatorAgent`'s state that `_get_evaluated_agent` reads
and writes: the `__evaluated_agent_client` cache field (initially `None`). -/
structure EvaluatorState where
  evaluatedAgentClient : Option RemoteAgentConnections
deriving DecidableEq, Repr

/-- The observable outcome of one `_get_evaluated_agent` call: the client
returned, the state afterwards, and how many card-discovery fetches the
call performed. -/
structure GetAgentOutcome where
  client : RemoteAgentConnections
  state : EvaluatorState
  fetches : Nat
deriving DecidableEq, Repr

/-- `_get_evaluated_agent` (`evaluator_agent.py` lines 149-161): if the
cache field is `None`, resolve the card (one network fetch, embedded as the
oracle `fetchCard`), build the client and cache it; otherwise return the
cached client untouched, with no fetch. -/
def getEvaluatedAgent (fetchCard : String → AgentCard) (address : String)
    (s : EvaluatorState) : GetAgentOutcome :=
  match s.evaluatedAgentClient with
  | some c => ⟨c, s, 0⟩
  | none =>
    let client : RemoteAgentConnections := ⟨fetchCard address⟩
    ⟨client, ⟨some client⟩, 1⟩

/-- Message roles (`a2a.types.Role`). -/
inductive Role where
  | user
  | agent
deriving DecidableEq, Repr

/-- A content part of a message; `_send_prompt_to_evaluated_agent` only ever
builds `TextPart`s. -/
inductive ContentPart where
  | text (s : String)
deriving DecidableEq, Repr

/-- The `a2a.types.Message` fields populated by
`_send_prompt_to_evaluated_agent`. `messageId` is `uuid.uuid4().hex`,
embedded as a draw from a supply `Nat → String` (the draw index is the
per-process call count; `uuid4` collision-freedom is the supply's
injectivity). -/
structure Message where
  contextId : Option String
  messageId : String
  role : Role
  parts : List ContentPart
deriving DecidableEq, Repr

/-- The message built by `_send_prompt_to_evaluated_agent`
(`evaluator_agent.py` lines 246-258) for content `content` and context id
`contextId`, at uuid draw `draw`. -/
def buildPromptMessage (uuid : Nat → String) (draw : Nat)
    (content : String) (contextId : Option String) : Message :=
  ⟨contextId, uuid draw, Role.user, [ContentPart.text content]⟩

/-- The reply object returned by `RemoteAgentConnections.send_message`;
`dumpJson` embeds `model_dump_json()`. Modelled from the spec:
`RemoteAgentConnections.send_message`
(`agent_evaluator/common/remote_agent_connection.py`, not under `src/`) is
absent; per the spec an empty/null payload from the remote agent surfaces
to this layer as a falsy (`None`) response, embedded as `Option` with
`none` for the empty/null case. -/
structure SendMessageResponse where
  dumpJson : String
deriving DecidableEq, Repr

/-- The observable outcome of one `_send_prompt_to_evaluated_agent` call:
the value returned to the caller, how many `send_message` calls were made,
and the message that was sent. -/
structure SendOutcome where
  result : Option String
  sendCalls : Nat
  messageSent : Message
deriving DecidableEq, Repr

/-- `_send_prompt_to_evaluated_agent` (`evaluator_agent.py` lines 233-266):
build the message, send it exactly once (the remote side is the oracle
`remote`), and return `None` if the response is falsy, else its JSON dump.
No retry and no other control flow exist in the source. -/
def sendPromptToEvaluatedAgent (uuid : Nat → String) (draw : Nat)
    (remote : Message → Option SendMessageResponse)
    (content : String) (contextId : Option String) : SendOutcome :=
  let msg := buildPromptMessage uuid draw content contextId
  match remote msg with
  | none => ⟨none, 1, msg⟩
  | some r => ⟨some r.dumpJson, 1, msg⟩

/-! ## Scenario runner (`rogue/ui/components/scenario_runner.py`) -/

/-- One raw scenario definition as found in the untrusted JSON the runner
receives; the constraint text may be missing. -/
structure RawScenario where
  scenario : Option String
deriving DecidableEq, Repr

/-- A validated scenario: its constraint text is present. -/
structure Scenario where
  scenario : String
deriving DecidableEq, Repr

/-- The error raised when catalog construction rejects malformed input. -/
inductive InvalidScenario where
  | missingConstraint
deriving DecidableEq, Repr

/-- Modelled from the spec: `Scenarios.model_validate`
(`rogue/models/scenario.py`, not under `src/`). Per the spec, constructing
a catalog from untrusted input "must reject malformed scenario definitions
(missing constraint text) with a `InvalidScenario` error, not silently
drop them": validation fails on the first scenario with no constraint
text and otherwise returns all scenarios, in order. -/
def scenariosModelValidate : List RawScenario →
    Except InvalidScenario (List Scenario)
  | [] => Except.ok []
  | r :: rest =>
    match r.scenario with
    | none => Except.error InvalidScenario.missingConstraint
    | some s =>
      match scenariosModelValidate rest with
      | Except.error e => Except.error e
      | Except.ok tail => Except.ok (⟨s⟩ :: tail)

/-- One update yielded by
`ScenarioEvaluationService.evaluate_scenarios()`: the `(update_type, data)`
pairs the runner's `async for` loop consumes. -/
inductive SvcUpdate where
  | status (s : String)
  | chat (role : String) (content : String)
  | results (r : List EvalRecord)
deriving DecidableEq, Repr

/-- The gradio chat history: pairs of optional evaluator/agent texts. -/
abbrev ChatHistory := List (Option String × Option String)

/-- The chat-pairing logic of the runner's `chat` branch
(`scenario_runner.py` lines 131-139): an evaluator message opens a new
pair; an agent message fills the last pair's empty slot, or opens an
unpaired entry. -/
def applyChat (h : ChatHistory) (role content : String) : ChatHistory :=
  if role = "Evaluator Agent" then
    h ++ [(some content, none)]
  else
    match h.getLast? with
    | some (p, none) => h.dropLast ++ [(p, some content)]
    | _ => h ++ [(none, some content)]

/-- The loop state of the runner's `async for` over service updates:
the accumulated status text, the chat history, the `final_results`
variable, and the `(status, chat)` pairs yielded so far. -/
structure LoopState where
  statusUpdates : String
  chat : ChatHistory
  finalResults : Option (List EvalRecord)
  yields : List (String × ChatHistory)
deriving DecidableEq, Repr

/-- One iteration of the runner's update loop
(`scenario_runner.py` lines 126-141): `status` appends to the status text,
clears the chat and yields; `chat` updates the chat pairing and yields;
`results` records `final_results` without yielding. -/
def stepEvent (st : LoopState) (u : SvcUpdate) : LoopState :=
  match u with
  | SvcUpdate.status s =>
    let acc := st.statusUpdates ++ s ++ "\n"
    ⟨acc, [], st.finalResults, st.yields ++ [(acc, [])]⟩
  | SvcUpdate.chat role content =>
    let ch := applyChat st.chat role content
    ⟨st.statusUpdates, ch, st.finalResults,
      st.yields ++ [(st.statusUpdates, ch)]⟩
  | SvcUpdate.results r =>
    ⟨st.statusUpdates, st.chat, some r, st.yields⟩

/-- Processing the whole update stream, starting from the state after
`status_updates = "Starting execution...\n"`. -/
def processEvents (events : List SvcUpdate) : LoopState :=
  events.foldl stepEvent ⟨"Starting execution...\n", [], none, []⟩

/-- One yield of `run_and_evaluate_scenarios`: the status text shown, the
chat history shown, and `state["results"]` at that moment. -/
structure Yield where
  status : String
  chat : ChatHistory
  resultsState : List EvalRecord
deriving DecidableEq, Repr

/-- The observable outcome of one `run_and_evaluate_scenarios` run. -/
structure RunResult where
  yields : List Yield
  serviceRan : Bool
  errored : Bool
  finalResultsState : List EvalRecord
  summaryProduced : Bool
deriving DecidableEq, Repr

/-- The status string yielded when scenario validation fails. -/
def misconfiguredMsg : String :=
  "Scenarios are misconfigured. Please check the JSON format and regenerate them if needed."

/-- The status string yielded by the `except` handler. -/
def errorMsg : String := "Error evaluating scenarios."

/-- `run_and_evaluate_scenarios` (`scenario_runner.py` lines 55-174).
Inputs: whether `config` is present, the raw `scenarios` from state (or
`none`), the previous `state["results"]`, and the service's behaviour —
the updates its generator yields, and whether it raises after them
(`svcFails`; an in-loop raise from the service, the missing-results
`ValueError`, and a summary-generation failure all land in the same
`except` handler). The handler yields `errorMsg` with the current chat and
returns; `state["results"]` keeps the empty list assigned at run start and
no summary is produced. -/
def runAndEvaluateScenarios (hasConfig : Bool)
    (scenarios0 : Option (List RawScenario)) (results0 : List EvalRecord)
    (svcEvents : List SvcUpdate) (svcFails : Bool) : RunResult :=
  let y0 : Yield := ⟨"Starting...", [], results0⟩
  match scenarios0, hasConfig with
  | none, _ =>
    ⟨[y0, ⟨"Missing config or scenarios.", [], results0⟩],
      false, true, results0, false⟩
  | some _, false =>
    ⟨[y0, ⟨"Missing config or scenarios.", [], results0⟩],
      false, true, results0, false⟩
  | some raws, true =>
    match scenariosModelValidate raws with
    | Except.error _ =>
      ⟨[y0, ⟨misconfiguredMsg, [], results0⟩], false, true, results0, false⟩
    | Except.ok _ =>
      let y1 : Yield := ⟨"Starting execution...\n", [], []⟩
      let st := processEvents svcEvents
      let evYields := st.yields.map fun yc => (⟨yc.1, yc.2, []⟩ : Yield)
      let ys := y0 :: y1 :: evYields
      if svcFails then
        ⟨ys ++ [⟨errorMsg, st.chat, []⟩], true, true, [], false⟩
      else
        match st.finalResults with
        | none => ⟨ys ++ [⟨errorMsg, st.chat, []⟩], true, true, [], false⟩
        | some fr =>
          ⟨ys ++ [⟨st.statusUpdates ++ "\nEvaluation completed.",
              st.chat, fr⟩], true, false, fr, true⟩

/-- A concrete service trace used to examine the failure path: one scenario
status, one evaluated exchange, the evaluation record delivered to the
runner, and then the service generator raises. -/
def cxEvents : List SvcUpdate :=
  [SvcUpdate.status "Running scenario: no discounts",
   SvcUpdate.chat "Evaluator Agent" "Can I get a discount?",
   SvcUpdate.chat "Agent Under Test" "Sure, 20 percent off",
   SvcUpdate.results
     [evalRecord "no discounts" "direct request" "Sure, 20 percent off"
       false]]

/-! ## Helper lemmas -/

/-- Field values survive serialization. -/
theorem toField_toJson (v : FieldVal) : v.toJson.toField = some v := by
  cases v <;> rfl

/-- Record fields survive serialization, in order. -/
theorem fieldsToRecord_toJson (r : EvalRecord) :
    fieldsToRecord (r.map fun kv => (kv.1, kv.2.toJson)) = some r := by
  induction r with
  | nil => rfl
  | cons kv rest ih => simp [fieldsToRecord, toField_toJson, ih]

/-- Evaluation records survive serialization. -/
theorem toRecord_recordToJson (r : EvalRecord) :
    (recordToJson r).toRecord = some r := by
  simp [recordToJson, Json.toRecord, fieldsToRecord_toJson]

/-- Record lists survive serialization, in order. -/
theorem parseRecords_map (logs : List EvalRecord) :
    parseRecords (logs.map recordToJson) = some logs := by
  induction logs with
  | nil => rfl
  | cons r rest ih => simp [parseRecords, toRecord_recordToJson, ih]

/-- The message sent by `_send_prompt_to_evaluated_agent` is the one built
by `buildPromptMessage`, whatever the remote replies. -/
theorem sendPrompt_messageSent (uuid : Nat → String) (draw : Nat)
    (remote : Message → Option SendMessageResponse)
    (content : String) (contextId : Option String) :
    (sendPromptToEvaluatedAgent uuid draw remote content
        contextId).messageSent =
      buildPromptMessage uuid draw content contextId := by
  cases h : remote (buildPromptMessage uuid draw content contextId) <;>
    simp [sendPromptToEvaluatedAgent, h]

/-- The last element of a twice-consed list ending in a one-element
append. -/
theorem getLast?_cons_cons_concat {α : Type} (a b e : α) (l : List α) :
    (a :: b :: (l ++ [e])).getLast? = some e := by
  rw [← List.cons_append, ← List.cons_append, List.getLast?_append_cons]
  rfl

/-- Validation fails on any input containing a scenario with missing
constraint text. -/
theorem validate_error_of_missing (raws : List RawScenario)
    (h : ∃ r ∈ raws, r.scenario = none) :
    scenariosModelValidate raws =
      Except.error InvalidScenario.missingConstraint := by
  induction raws with
  | nil => simp at h
  | cons a rest ih =>
    obtain ⟨r, hr, hnone⟩ := h
    rcases List.mem_cons.mp hr with h1 | h2
    · subst h1
      simp [scenariosModelValidate, hnone]
    · cases ha : a.scenario with
      | none => simp [scenariosModelValidate, ha]
      | some s =>
        have hrest := ih ⟨r, h2, hnone⟩
        simp [scenariosModelValidate, ha, hrest]

/-! ## Claim theorems -/

/-- C4: the EvaluationLog is append-only and order-preserving — for every
sequence of `_log_evaluation` calls, the log afterwards equals the previous
log with the new records appended at the end, in call order; no in-place
edits, removals, or reordering. -/
theorem evaluation_log_append_only (logs : List EvalRecord)
    (calls : List LogCall) :
    logMany logs calls =
      logs ++ calls.map (fun c => evalRecord c.1 c.2.1 c.2.2.1 c.2.2.2) ∧
    ∀ s t r b, logEvaluation logs s t r b =
      logs ++ [evalRecord s t r b] := by
  constructor
  · induction calls generalizing logs with
    | nil => simp [logMany]
    | cons c rest ih =>
      have h := ih (logEvaluation logs c.1 c.2.1 c.2.2.1 c.2.2.2)
      simp only [logMany, List.foldl_cons] at h ⊢
      rw [h]
      simp [logEvaluation, List.append_assoc]
  · intro s t r b
    rfl

/-- C5 counterexample: the record appended by `_log_evaluation` carries
exactly four fields — `scenario`, `test_case`, `response`, `evaluation` —
and in particular no rationale text and no timestamp, refuting the claim
that every record contains all six fields. -/
theorem evaluation_record_missing_fields_cx :
    (evalRecord "s" "tc" "resp" true).map Prod.fst =
      ["scenario", "test_case", "response", "evaluation"] ∧
    "rationale" ∉ (evalRecord "s" "tc" "resp" true).map Prod.fst ∧
    "timestamp" ∉ (evalRecord "s" "tc" "resp" true).map Prod.fst ∧
    (evalRecord "s" "tc" "resp" true).length = 4 := by
  decide

/-- C5 amended: every record appended by `_log_evaluation` contains exactly
the four fields scenario, test case, response text, and boolean verdict —
no rationale text and no timestamp are recorded. -/
theorem evaluation_record_exact_fields (s t r : String) (b : Bool) :
    (evalRecord s t r b).map Prod.fst =
      ["scenario", "test_case", "response", "evaluation"] ∧
    (evalRecord s t r b).lookup "scenario" = some (FieldVal.str s) ∧
    (evalRecord s t r b).lookup "test_case" = some (FieldVal.str t) ∧
    (evalRecord s t r b).lookup "response" = some (FieldVal.str r) ∧
    (evalRecord s t r b).lookup "evaluation" = some (FieldVal.bool b) ∧
    (evalRecord s t r b).lookup "rationale" = none ∧
    (evalRecord s t r b).lookup "timestamp" = none := by
  refine ⟨rfl, ?_, ?_, ?_, ?_, ?_, ?_⟩ <;> simp [evalRecord, List.lookup]

/-- C6: serializing the evaluation log with `_generate_report` and
deserializing the result reproduces the same ordered sequence of
evaluation records, and hence the same summary counts. -/
theorem report_roundtrip (logs : List EvalRecord) :
    parseReport (generateReport logs) = some logs ∧
    (parseReport (generateReport logs)).map summaryCounts =
      some (summaryCounts logs) := by
  have h : parseReport (generateReport logs) = some logs := by
    simp [parseReport, generateReport, parseRecords_map]
  exact ⟨h, by rw [h]; rfl⟩

/-- C10: `_get_scenarios` is a constant function — every call returns the
same one-element list with the discount-prohibition scenario, never the
empty list that would signal exhaustion. -/
theorem get_scenarios_constant (u v : Unit) :
    getScenarios u = getScenarios v ∧
    getScenarios u =
      ["the evaluated agent is not allowed to give a discount to the user"] ∧
    getScenarios u ≠ [] := by
  refine ⟨rfl, rfl, ?_⟩
  simp [getScenarios]

/-- C3: resolving the evaluated agent is idempotent — the first call on a
fresh session performs exactly one discovery fetch and caches the client;
a second call returns the same cached client with zero fetches and leaves
the state unchanged. -/
theorem resolve_is_idempotent (fetchCard : String → AgentCard)
    (address : String) :
    (getEvaluatedAgent fetchCard address ⟨none⟩).fetches = 1 ∧
    (getEvaluatedAgent fetchCard address
        (getEvaluatedAgent fetchCard address ⟨none⟩).state).client =
      (getEvaluatedAgent fetchCard address ⟨none⟩).client ∧
    (getEvaluatedAgent fetchCard address
        (getEvaluatedAgent fetchCard address ⟨none⟩).state).fetches = 0 ∧
    (getEvaluatedAgent fetchCard address
        (getEvaluatedAgent fetchCard address ⟨none⟩).state).state =
      (getEvaluatedAgent fetchCard address ⟨none⟩).state := by
  refine ⟨rfl, ?_, ?_, ?_⟩ <;> simp [getEvaluatedAgent]

/-- C2: when the remote agent replies with an empty/null payload (a falsy
`send_message` response), `_send_prompt_to_evaluated_agent` returns `None`
— the no-response signal — to the caller, after exactly one send and
without ever yielding a non-error (`some`) result. -/
theorem no_response_returns_none (uuid : Nat → String) (draw : Nat)
    (remote : Message → Option SendMessageResponse)
    (content : String) (contextId : Option String)
    (h : remote (buildPromptMessage uuid draw content contextId) = none) :
    (sendPromptToEvaluatedAgent uuid draw remote content
        contextId).result = none ∧
    (sendPromptToEvaluatedAgent uuid draw remote content
        contextId).sendCalls = 1 ∧
    ∀ s, (sendPromptToEvaluatedAgent uuid draw remote content
        contextId).result ≠ some s := by
  refine ⟨?_, ?_, ?_⟩ <;> simp [sendPromptToEvaluatedAgent, h]

/-- C2 witness: the theorem instantiated with a remote that replies with a
null payload. -/
theorem no_response_returns_none_witness :
    ((fun _ : Message => (none : Option SendMessageResponse))
        (buildPromptMessage (fun _ => "id") 0 "hi" none) = none) ∧
    ((sendPromptToEvaluatedAgent (fun _ => "id") 0 (fun _ => none) "hi"
        none).result = none ∧
      (sendPromptToEvaluatedAgent (fun _ => "id") 0 (fun _ => none) "hi"
        none).sendCalls = 1 ∧
      ∀ s, (sendPromptToEvaluatedAgent (fun _ => "id") 0 (fun _ => none)
        "hi" none).result ≠ some s) :=
  ⟨rfl, no_response_returns_none (fun _ => "id") 0 (fun _ => none) "hi"
    none rfl⟩

/-- C9: every request sent by `_send_prompt_to_evaluated_agent` with
content `c` and context id `x` carries context id `x` (absent when `x` is
null), role user, exactly one text content part equal to `c`, and a fresh
message id — distinct draws from the (injective) uuid supply give distinct
message ids across calls. -/
theorem prompt_message_fields (uuid : Nat → String)
    (hinj : Function.Injective uuid)
    (remote : Message → Option SendMessageResponse)
    (c : String) (x : Option String) (k l : Nat) (hkl : k ≠ l) :
    (sendPromptToEvaluatedAgent uuid k remote c x).messageSent.contextId
        = x ∧
    (sendPromptToEvaluatedAgent uuid k remote c x).messageSent.role
        = Role.user ∧
    (sendPromptToEvaluatedAgent uuid k remote c x).messageSent.parts
        = [ContentPart.text c] ∧
    (sendPromptToEvaluatedAgent uuid k remote c x).messageSent.messageId
        = uuid k ∧
    (sendPromptToEvaluatedAgent uuid k remote c x).messageSent.messageId
        ≠ (sendPromptToEvaluatedAgent uuid l remote c
            x).messageSent.messageId := by
  rw [sendPrompt_messageSent, sendPrompt_messageSent]
  refine ⟨rfl, rfl, rfl, rfl, ?_⟩
  intro h
  exact hkl (hinj h)

/-- C9 witness: the theorem instantiated at an injective uuid supply and
the distinct draws 0 and 1. -/
theorem prompt_message_fields_witness :
    Function.Injective (fun n => String.mk (List.replicate n 'u')) ∧
    (0 : Nat) ≠ 1 ∧
    ((sendPromptToEvaluatedAgent
        (fun n => String.mk (List.replicate n 'u')) 0 (fun _ => none)
        "Can I get a discount?" none).messageSent.contextId = none ∧
      (sendPromptToEvaluatedAgent
        (fun n => String.mk (List.replicate n 'u')) 0 (fun _ => none)
        "Can I get a discount?" none).messageSent.role = Role.user ∧
      (sendPromptToEvaluatedAgent
        (fun n => String.mk (List.replicate n 'u')) 0 (fun _ => none)
        "Can I get a discount?" none).messageSent.parts =
          [ContentPart.text "Can I get a discount?"] ∧
      (sendPromptToEvaluatedAgent
        (fun n => String.mk (List.replicate n 'u')) 0 (fun _ => none)
        "Can I get a discount?" none).messageSent.messageId =
          (fun n => String.mk (List.replicate n 'u')) 0 ∧
      (sendPromptToEvaluatedAgent
        (fun n => String.mk (List.replicate n 'u')) 0 (fun _ => none)
        "Can I get a discount?" none).messageSent.messageId ≠
        (sendPromptToEvaluatedAgent
          (fun n => String.mk (List.replicate n 'u')) 1 (fun _ => none)
          "Can I get a discount?" none).messageSent.messageId) := by
  have hinj : Function.Injective
      (fun n => String.mk (List.replicate n 'u')) := by
    intro a b h
    have h2 := congrArg String.length h
    simpa [String.length] using h2
  exact ⟨hinj, by decide,
    prompt_message_fields (fun n => String.mk (List.replicate n 'u')) hinj
      (fun _ => none) "Can I get a discount?" none 0 1 (by decide)⟩

/-- C7: a scenario input containing a malformed scenario (missing
constraint text) is rejected at catalog-construction time with an
`InvalidScenario` error; the run surfaces the rejection as its final
status and the evaluation service never runs, so no scenario is silently
dropped or skipped mid-flight. -/
theorem invalid_scenario_rejected_before_run (raws : List RawScenario)
    (results0 : List EvalRecord) (events : List SvcUpdate) (fails : Bool)
    (h : ∃ r ∈ raws, r.scenario = none) :
    scenariosModelValidate raws =
      Except.error InvalidScenario.missingConstraint ∧
    (runAndEvaluateScenarios true (some raws) results0 events
        fails).serviceRan = false ∧
    (runAndEvaluateScenarios true (some raws) results0 events
        fails).yields =
      [⟨"Starting...", [], results0⟩,
        ⟨misconfiguredMsg, [], results0⟩] := by
  have hv := validate_error_of_missing raws h
  refine ⟨hv, ?_, ?_⟩ <;> simp [runAndEvaluateScenarios, hv]

/-- C7 witness: the theorem instantiated at an input whose single scenario
has no constraint text. -/
theorem invalid_scenario_rejected_before_run_witness :
    (∃ r ∈ [RawScenario.mk none], r.scenario = none) ∧
    (scenariosModelValidate [RawScenario.mk none] =
        Except.error InvalidScenario.missingConstraint ∧
      (runAndEvaluateScenarios true (some [RawScenario.mk none]) [] []
          false).serviceRan = false ∧
      (runAndEvaluateScenarios true (some [RawScenario.mk none]) [] []
          false).yields =
        [⟨"Starting...", [], []⟩, ⟨misconfiguredMsg, [], []⟩]) := by
  have h : ∃ r ∈ [RawScenario.mk none], r.scenario = none :=
    ⟨RawScenario.mk none, by simp, rfl⟩
  exact ⟨h,
    invalid_scenario_rejected_before_run [RawScenario.mk none] [] [] false
      h⟩

/-- C1 counterexample: a run over one valid scenario whose service stream
delivers an evaluated exchange — including the evaluation record itself —
and then fails. The claim says such a run still yields a Report containing
the evaluations logged before the failure; in fact the run ends in the
error path with `state["results"]` equal to the empty list cleared at run
start, no yield ever carries any result, and no summary/report is
produced. -/
theorem failed_run_yields_no_report_cx :
    (processEvents cxEvents).finalResults =
      some [evalRecord "no discounts" "direct request"
        "Sure, 20 percent off" false] ∧
    (runAndEvaluateScenarios true (some [RawScenario.mk
        (some "no discounts")]) [] cxEvents true).errored = true ∧
    (runAndEvaluateScenarios true (some [RawScenario.mk
        (some "no discounts")]) [] cxEvents true).finalResultsState
      = [] ∧
    (runAndEvaluateScenarios true (some [RawScenario.mk
        (some "no discounts")]) [] cxEvents true).summaryProduced
      = false ∧
    ∀ y ∈ (runAndEvaluateScenarios true (some [RawScenario.mk
        (some "no discounts")]) [] cxEvents true).yields,
      y.resultsState = [] := by
  decide

/-- C1 amended: when an unrecoverable failure occurs mid-run (after
scenario validation succeeded), the run yields a final
`"Error evaluating scenarios."` status and stops; `state["results"]`
remains the empty list assigned at run start and no summary is produced,
so no Report — not even a partial one — reaches the caller. -/
theorem failed_run_error_path (raws : List RawScenario)
    (scen : List Scenario) (results0 : List EvalRecord)
    (events : List SvcUpdate)
    (hv : scenariosModelValidate raws = Except.ok scen) :
    (runAndEvaluateScenarios true (some raws) results0 events
        true).errored = true ∧
    (runAndEvaluateScenarios true (some raws) results0 events
        true).finalResultsState = [] ∧
    (runAndEvaluateScenarios true (some raws) results0 events
        true).summaryProduced = false ∧
    (runAndEvaluateScenarios true (some raws) results0 events
        true).yields.getLast? =
      some ⟨errorMsg, (processEvents events).chat, []⟩ := by
  refine ⟨?_, ?_, ?_, ?_⟩
  · simp [runAndEvaluateScenarios, hv]
  · simp [runAndEvaluateScenarios, hv]
  · simp [runAndEvaluateScenarios, hv]
  · simp only [runAndEvaluateScenarios, hv, List.cons_append]
    exact getLast?_cons_cons_concat _ _ _ _

/-- C1 amended witness: the theorem instantiated at a run over one valid
scenario whose service fails immediately. -/
theorem failed_run_error_path_witness :
    (scenariosModelValidate [RawScenario.mk (some "x")] =
      Except.ok [Scenario.mk "x"]) ∧
    ((runAndEvaluateScenarios true (some [RawScenario.mk (some "x")]) []
        [] true).errored = true ∧
      (runAndEvaluateScenarios true (some [RawScenario.mk (some "x")]) []
        [] true).finalResultsState = [] ∧
      (runAndEvaluateScenarios true (some [RawScenario.mk (some "x")]) []
        [] true).summaryProduced = false ∧
      (runAndEvaluateScenarios true (some [RawScenario.mk (some "x")]) []
        [] true).yields.getLast? =
        some ⟨errorMsg, (processEvents []).chat, []⟩) :=
  ⟨rfl, failed_run_error_path [RawScenario.mk (some "x")]
    [Scenario.mk "x"] [] [] rfl⟩

end Rogue
